import Mathlib

/-!
Verification development for the researchGPT browser client.

The client is a Next.js/React application.  The root view (`Home` in
`frontend/app/page.tsx`) owns the papers list, the groups list, the two
selections, the chat transcript, the answer mode and the loading flag, and
defines the HTTP operations.  The sidebar (`PaperSidebar.tsx`) owns the
drag-and-drop upload state, and the group modal (`GroupModal.tsx`) owns the
checkbox set of paper ids.

This file embeds that state and those operations shallowly: each React
`useState` cell becomes a field of an explicit state record, each async
handler becomes a pure function from the pre-state and the network outcome
to the post-state.  Because an async handler updates state both before its
`await` (the synchronous prefix) and after (the continuation), handlers are
split into a `...Start` and a `...Finish` function; the full call is their
composition.  Network outcomes are values of `ApiOutcome`: `failure` covers
a transport error, a non-2xx status and an unparsable body alike, because
the source collapses all three into the same `catch`/early-return path.
-/

/-- A paper record as defined in `page.tsx` (interface `Paper`). -/
structure Paper where
  paper_id : String
  filename : String
  title : Option String
  upload_date : String
  total_pages : Nat
  total_chunks : Nat
deriving DecidableEq

/-- Chat message role, `'user' | 'assistant'` in `page.tsx`. -/
inductive Role where
  | user
  | assistant
deriving DecidableEq

/-- A citation record as defined in `page.tsx` (interface `Citation`). -/
structure Citation where
  paper_id : String
  page : Nat
  «section» : String
  chunk_preview : String
deriving DecidableEq

/-- A chat message as defined in `page.tsx` (interface `Message`).
`timestamp` is the millisecond clock value of `new Date()`. -/
structure Message where
  id : String
  role : Role
  content : String
  citations : Option (List Citation)
  mode : Option String
  timestamp : Nat
deriving DecidableEq

/-- A paper group as defined in `page.tsx` (interface `PaperGroup`). -/
structure PaperGroup where
  group_id : String
  name : String
  description : Option String
  paper_ids : List String
  created_date : String
deriving DecidableEq

/-- The answer mode, `'academic' | 'simple' | 'eli5'` in `page.tsx`. -/
inductive Mode where
  | academic
  | simple
  | eli5
deriving DecidableEq

/-- The string the mode serializes to in a JSON request body. -/
def Mode.str : Mode → String
  | .academic => "academic"
  | .simple => "simple"
  | .eli5 => "eli5"

/-- The root view's state: one field per `useState` cell of `Home`. -/
structure ClientState where
  papers : List Paper
  selectedPaper : Option Paper
  groups : List PaperGroup
  selectedGroup : Option PaperGroup
  messages : List Message
  isLoading : Bool
  mode : Mode
  sidebarOpen : Bool
deriving DecidableEq

/-- The initial state of `Home`: every `useState` initializer. -/
def initState : ClientState :=
  { papers := []
    selectedPaper := none
    groups := []
    selectedGroup := none
    messages := []
    isLoading := false
    mode := .academic
    sidebarOpen := true }

/-- Outcome of one awaited network interaction.  `failure` covers a thrown
fetch, a non-ok status and an unparsable JSON body: the source treats all of
them through the same `catch` or early-return path. -/
inductive ApiOutcome (α : Type) where
  | success (data : α)
  | failure
deriving DecidableEq

/-- `fetchPapers` continuation: on success `setPapers(data.papers || [])`
(the payload is `none` when the response object lacks a `papers` field), on
any failure no state change. -/
def fetchPapersApply (st : ClientState) (o : ApiOutcome (Option (List Paper))) :
    ClientState :=
  match o with
  | .success payload => { st with papers := payload.getD [] }
  | .failure => st

/-- `fetchGroups` continuation: on success `setGroups(data.groups || [])`,
on any failure no state change. -/
def fetchGroupsApply (st : ClientState) (o : ApiOutcome (Option (List PaperGroup))) :
    ClientState :=
  match o with
  | .success payload => { st with groups := payload.getD [] }
  | .failure => st

/-- Synchronous prefix of `createGroup`: the source performs no state update
before its `fetch` (in particular it never touches `isLoading`). -/
def createGroupStart (st : ClientState) : ClientState := st

/-- Continuation of `createGroup`: on success it awaits `fetchGroups()`
(whose own outcome is the inner `ApiOutcome`); on failure it only returns an
error tuple, with no state change. -/
def createGroupFinish (st : ClientState)
    (o : ApiOutcome (ApiOutcome (Option (List PaperGroup)))) : ClientState :=
  match o with
  | .success refetch => fetchGroupsApply st refetch
  | .failure => st

/-- Synchronous prefix of `deleteGroup`: no state update before the fetch. -/
def deleteGroupStart (st : ClientState) : ClientState := st

/-- The guarded `setSelectedGroup(null)` of `deleteGroup`:
`if (selectedGroup?.group_id === groupId) setSelectedGroup(null)`. -/
def clearGroupIfDeleted (st : ClientState) (groupId : String) : ClientState :=
  match st.selectedGroup with
  | some g => if g.group_id = groupId then { st with selectedGroup := none } else st
  | none => st

/-- Continuation of `deleteGroup groupId`: on success it refetches the
groups, then clears `selectedGroup` when the selected group carries the
deleted id; on failure (non-ok status or thrown fetch) no state change. -/
def deleteGroupFinish (st : ClientState) (groupId : String)
    (o : ApiOutcome (ApiOutcome (Option (List PaperGroup)))) : ClientState :=
  match o with
  | .success refetch => clearGroupIfDeleted (fetchGroupsApply st refetch) groupId
  | .failure => st

/-- Synchronous prefix of `addPapersToGroup`: no state update before the fetch. -/
def addPapersToGroupStart (st : ClientState) : ClientState := st

/-- Continuation of `addPapersToGroup`: on success it refetches the groups;
on failure it only returns an error tuple. -/
def addPapersToGroupFinish (st : ClientState)
    (o : ApiOutcome (ApiOutcome (Option (List PaperGroup)))) : ClientState :=
  match o with
  | .success refetch => fetchGroupsApply st refetch
  | .failure => st

/-- Synchronous prefix of `uploadPaper`: `setIsLoading(true)` before the fetch. -/
def uploadPaperStart (st : ClientState) : ClientState :=
  { st with isLoading := true }

/-- Continuation of `uploadPaper`: on success it refetches the papers; either
way the `finally` block runs `setIsLoading(false)`. -/
def uploadPaperFinish (st : ClientState)
    (o : ApiOutcome (ApiOutcome (Option (List Paper)))) : ClientState :=
  match o with
  | .success refetch => { fetchPapersApply st refetch with isLoading := false }
  | .failure => { st with isLoading := false }

/-- Synchronous prefix of `deletePaper`: no state update before the fetch
(the source never touches `isLoading` here). -/
def deletePaperStart (st : ClientState) : ClientState := st

/-- The guarded `setSelectedPaper(null)` of `deletePaper`:
`if (selectedPaper?.paper_id === paperId) setSelectedPaper(null)`. -/
def clearPaperIfDeleted (st : ClientState) (paperId : String) : ClientState :=
  match st.selectedPaper with
  | some p => if p.paper_id = paperId then { st with selectedPaper := none } else st
  | none => st

/-- Continuation of `deletePaper paperId`: on success it refetches the
papers, then clears `selectedPaper` when the selected paper carries the
deleted id; on failure no state change. -/
def deletePaperFinish (st : ClientState) (paperId : String)
    (o : ApiOutcome (ApiOutcome (Option (List Paper)))) : ClientState :=
  match o with
  | .success refetch => clearPaperIfDeleted (fetchPapersApply st refetch) paperId
  | .failure => st

/-- The response shape of `POST /ask_question`: `{ answer, citations, mode }`.
`citations` and `mode` are optional because the client copies them into the
optional `Message` fields without checking presence. -/
structure AskResponse where
  answer : String
  citations : Option (List Citation)
  mode : Option String
deriving DecidableEq

/-- A fragment of JSON values, just large enough to describe what the
`askQuestion` request body can carry in each field. -/
inductive JVal where
  | jnull
  | jstr (s : String)
  | jnum (n : Nat)
  | jarr (xs : List String)
deriving DecidableEq

/-- Look a key up in a JSON object represented as a key/value list. -/
def bodyGet (body : List (String × JVal)) (k : String) : Option JVal :=
  (body.find? (fun kv => kv.1 == k)).map (fun kv => kv.2)

/-- The JSON body `askQuestion` posts, field by field from the source:
`{"question": question, "paper_id": selectedPaper?.paper_id || null,
"group_id": selectedGroup?.group_id || null, "mode": mode, "top_k": 5}`.
The JavaScript `|| null` is falsy coalescing, so an absent selection AND an
empty-string id both yield `null`.  (The source also computes a local
`paper_ids` from `selectedGroup.paper_ids`, but that variable is dead: it
never reaches the request body.) -/
def askBody (st : ClientState) (question : String) : List (String × JVal) :=
  [("question", JVal.jstr question),
   ("paper_id",
     match st.selectedPaper with
     | some p => if p.paper_id = "" then JVal.jnull else JVal.jstr p.paper_id
     | none => JVal.jnull),
   ("group_id",
     match st.selectedGroup with
     | some g => if g.group_id = "" then JVal.jnull else JVal.jstr g.group_id
     | none => JVal.jnull),
   ("mode", JVal.jstr st.mode.str),
   ("top_k", JVal.jnum 5)]

/-- The optimistic user message `askQuestion` builds from `Date.now()`. -/
def mkUserMessage (question : String) (now : Nat) : Message :=
  { id := toString now
    role := .user
    content := question
    citations := none
    mode := none
    timestamp := now }

/-- The fixed apology text of the `askQuestion` error path. -/
def apologyText : String :=
  "Sorry, I encountered an error processing your question. Please try again."

/-- The fallback assistant message of the `askQuestion` error path; `now2` is
the clock value when the failure is handled. -/
def apologyMessage (now2 : Nat) : Message :=
  { id := toString (now2 + 1)
    role := .assistant
    content := apologyText
    citations := none
    mode := none
    timestamp := now2 }

/-- Synchronous prefix of `askQuestion question`: append the optimistic user
message and set the loading flag, before issuing the request. -/
def askQuestionStart (st : ClientState) (question : String) (now : Nat) :
    ClientState :=
  { st with
    messages := st.messages ++ [mkUserMessage question now]
    isLoading := true }

/-- Continuation of `askQuestion`: on success append the assistant message
built from the response; on failure append the fixed apology message; either
way the `finally` block clears the loading flag.  `now2` is the clock value
when the response is handled. -/
def askQuestionFinish (st : ClientState) (o : ApiOutcome AskResponse)
    (now2 : Nat) : ClientState :=
  match o with
  | .success d =>
    { st with
      messages := st.messages ++
        [{ id := toString (now2 + 1)
           role := .assistant
           content := d.answer
           citations := d.citations
           mode := d.mode
           timestamp := now2 }]
      isLoading := false }
  | .failure =>
    { st with
      messages := st.messages ++ [apologyMessage now2]
      isLoading := false }

/-- A full `askQuestion` call with no interleaved events. -/
def askQuestion (st : ClientState) (question : String) (now : Nat)
    (o : ApiOutcome AskResponse) (now2 : Nat) : ClientState :=
  askQuestionFinish (askQuestionStart st question now) o now2

/-- A browser file as the sidebar sees it: a name and a MIME type string. -/
structure DomFile where
  name : String
  type : String
deriving DecidableEq

/-- The sidebar's upload-related `useState` cells (`PaperSidebar`). -/
structure SidebarState where
  isDragging : Bool
  uploadProgress : Option String
  error : Option String
deriving DecidableEq

/-- The sidebar's initial upload state. -/
def initSidebar : SidebarState :=
  { isDragging := false, uploadProgress := none, error := none }

/-- `handleDrop` up to the first `await`: clear the drag flag and the error,
take the first dropped file, and when it exists and its MIME type is exactly
`application/pdf` enter `handleFileUpload` (progress text set, the file is
posted — returned as `some file`); otherwise display the fixed error and
post nothing (`none`). -/
def handleDrop (st : SidebarState) (files : List DomFile) :
    SidebarState × Option DomFile :=
  let st1 : SidebarState := { st with isDragging := false, error := none }
  match files.head? with
  | some f =>
    if f.type = "application/pdf" then
      ({ st1 with uploadProgress := some "Processing...", error := none }, some f)
    else
      ({ st1 with error := some "Please upload a PDF file" }, none)
  | none => ({ st1 with error := some "Please upload a PDF file" }, none)

/-- `handleFileSelect` up to the first `await`: take the first file of the
input element and, whenever one exists, enter `handleFileUpload` with it —
no MIME-type check appears on this path (the `accept=".pdf"` attribute only
filters the picker dialog by extension). -/
def handleFileSelect (st : SidebarState) (files : List DomFile) :
    SidebarState × Option DomFile :=
  match files.head? with
  | some f =>
    ({ st with uploadProgress := some "Processing...", error := none }, some f)
  | none => (st, none)

/-- `togglePaper` from `GroupModal.tsx`: remove the id when present
(`prev.filter(id => id !== paperId)`), append it when absent
(`[...prev, paperId]`). -/
def togglePaper (prev : List String) (paperId : String) : List String :=
  if prev.contains paperId then prev.filter (fun id => id != paperId)
  else prev ++ [paperId]

/-- One UI event of the root view, relating pre-state to post-state.  Fetch
continuations, handler prefixes and handler continuations are separate steps,
so overlapping in-flight requests are permitted, as in the source.  The
selection steps carry the guard that the sidebar only offers papers from the
papers list and groups from the groups list (the All-Papers button passes
`none`); both selection callbacks in `Home` clear the other selection.
Handler steps whose synchronous prefix is the identity are represented by
their continuation alone. -/
inductive Step : ClientState → ClientState → Prop where
  | fetchPapers (st : ClientState) (o : ApiOutcome (Option (List Paper))) :
      Step st (fetchPapersApply st o)
  | fetchGroups (st : ClientState) (o : ApiOutcome (Option (List PaperGroup))) :
      Step st (fetchGroupsApply st o)
  | selectPaper (st : ClientState) (p : Option Paper)
      (h : ∀ x, p = some x → x ∈ st.papers) :
      Step st { st with selectedPaper := p, selectedGroup := none }
  | selectGroup (st : ClientState) (g : PaperGroup) (h : g ∈ st.groups) :
      Step st { st with selectedGroup := some g, selectedPaper := none }
  | createGroupStep (st : ClientState)
      (o : ApiOutcome (ApiOutcome (Option (List PaperGroup)))) :
      Step st (createGroupFinish st o)
  | deleteGroupStep (st : ClientState) (gid : String)
      (o : ApiOutcome (ApiOutcome (Option (List PaperGroup)))) :
      Step st (deleteGroupFinish st gid o)
  | addPapersStep (st : ClientState)
      (o : ApiOutcome (ApiOutcome (Option (List PaperGroup)))) :
      Step st (addPapersToGroupFinish st o)
  | uploadStartStep (st : ClientState) :
      Step st (uploadPaperStart st)
  | uploadFinishStep (st : ClientState)
      (o : ApiOutcome (ApiOutcome (Option (List Paper)))) :
      Step st (uploadPaperFinish st o)
  | deletePaperStep (st : ClientState) (pid : String)
      (o : ApiOutcome (ApiOutcome (Option (List Paper)))) :
      Step st (deletePaperFinish st pid o)
  | askStartStep (st : ClientState) (q : String) (now : Nat) :
      Step st (askQuestionStart st q now)
  | askFinishStep (st : ClientState) (o : ApiOutcome AskResponse) (now2 : Nat) :
      Step st (askQuestionFinish st o now2)
  | setModeStep (st : ClientState) (m : Mode) :
      Step st { st with mode := m }
  | toggleSidebarStep (st : ClientState) :
      Step st { st with sidebarOpen := !st.sidebarOpen }

/-- The states the root view can reach from its initial render. -/
inductive Reachable : ClientState → Prop where
  | init : Reachable initState
  | step (st st' : ClientState) : Reachable st → Step st st' → Reachable st'

/-- The frame the error-handling spec talks about: papers list, groups list
and both selections agree between two states. -/
def framePGS (a b : ClientState) : Prop :=
  a.papers = b.papers ∧ a.groups = b.groups ∧
  a.selectedPaper = b.selectedPaper ∧ a.selectedGroup = b.selectedGroup

/-- Mutual exclusivity of the two selections. -/
def selExcl (st : ClientState) : Prop :=
  st.selectedPaper = none ∨ st.selectedGroup = none

@[simp] lemma fetchPapersApply_selectedPaper (st : ClientState)
    (o : ApiOutcome (Option (List Paper))) :
    (fetchPapersApply st o).selectedPaper = st.selectedPaper := by
  cases o <;> rfl

@[simp] lemma fetchPapersApply_selectedGroup (st : ClientState)
    (o : ApiOutcome (Option (List Paper))) :
    (fetchPapersApply st o).selectedGroup = st.selectedGroup := by
  cases o <;> rfl

@[simp] lemma fetchGroupsApply_selectedPaper (st : ClientState)
    (o : ApiOutcome (Option (List PaperGroup))) :
    (fetchGroupsApply st o).selectedPaper = st.selectedPaper := by
  cases o <;> rfl

@[simp] lemma fetchGroupsApply_selectedGroup (st : ClientState)
    (o : ApiOutcome (Option (List PaperGroup))) :
    (fetchGroupsApply st o).selectedGroup = st.selectedGroup := by
  cases o <;> rfl

lemma clearGroupIfDeleted_selectedPaper (st : ClientState) (gid : String) :
    (clearGroupIfDeleted st gid).selectedPaper = st.selectedPaper := by
  rcases e : st.selectedGroup with _ | g
  · simp only [clearGroupIfDeleted, e]
  · simp only [clearGroupIfDeleted, e]
    by_cases hg : g.group_id = gid
    · rw [if_pos hg]
    · rw [if_neg hg]

lemma clearGroupIfDeleted_selectedGroup (st : ClientState) (gid : String) :
    (clearGroupIfDeleted st gid).selectedGroup = st.selectedGroup ∨
    (clearGroupIfDeleted st gid).selectedGroup = none := by
  rcases e : st.selectedGroup with _ | g
  · simp only [clearGroupIfDeleted, e]
    exact Or.inl trivial
  · simp only [clearGroupIfDeleted, e]
    by_cases hg : g.group_id = gid
    · rw [if_pos hg]
      exact Or.inr rfl
    · rw [if_neg hg]
      exact Or.inl e

lemma clearPaperIfDeleted_selectedGroup (st : ClientState) (pid : String) :
    (clearPaperIfDeleted st pid).selectedGroup = st.selectedGroup := by
  rcases e : st.selectedPaper with _ | p
  · simp only [clearPaperIfDeleted, e]
  · simp only [clearPaperIfDeleted, e]
    by_cases hp : p.paper_id = pid
    · rw [if_pos hp]
    · rw [if_neg hp]

lemma clearPaperIfDeleted_selectedPaper (st : ClientState) (pid : String) :
    (clearPaperIfDeleted st pid).selectedPaper = st.selectedPaper ∨
    (clearPaperIfDeleted st pid).selectedPaper = none := by
  rcases e : st.selectedPaper with _ | p
  · simp only [clearPaperIfDeleted, e]
    exact Or.inl trivial
  · simp only [clearPaperIfDeleted, e]
    by_cases hp : p.paper_id = pid
    · rw [if_pos hp]
      exact Or.inr rfl
    · rw [if_neg hp]
      exact Or.inl e

lemma deleteGroupFinish_selectedPaper (st : ClientState) (gid : String)
    (o : ApiOutcome (ApiOutcome (Option (List PaperGroup)))) :
    (deleteGroupFinish st gid o).selectedPaper = st.selectedPaper := by
  cases o with
  | failure => rfl
  | success r =>
    calc (deleteGroupFinish st gid (.success r)).selectedPaper
        = (fetchGroupsApply st r).selectedPaper :=
          clearGroupIfDeleted_selectedPaper _ _
      _ = st.selectedPaper := fetchGroupsApply_selectedPaper _ _

lemma deleteGroupFinish_selectedGroup (st : ClientState) (gid : String)
    (o : ApiOutcome (ApiOutcome (Option (List PaperGroup)))) :
    (deleteGroupFinish st gid o).selectedGroup = st.selectedGroup ∨
    (deleteGroupFinish st gid o).selectedGroup = none := by
  cases o with
  | failure => exact Or.inl rfl
  | success r =>
    rcases clearGroupIfDeleted_selectedGroup (fetchGroupsApply st r) gid with h | h
    · exact Or.inl (h.trans (fetchGroupsApply_selectedGroup _ _))
    · exact Or.inr h

lemma deletePaperFinish_selectedGroup (st : ClientState) (pid : String)
    (o : ApiOutcome (ApiOutcome (Option (List Paper)))) :
    (deletePaperFinish st pid o).selectedGroup = st.selectedGroup := by
  cases o with
  | failure => rfl
  | success r =>
    calc (deletePaperFinish st pid (.success r)).selectedGroup
        = (fetchPapersApply st r).selectedGroup :=
          clearPaperIfDeleted_selectedGroup _ _
      _ = st.selectedGroup := fetchPapersApply_selectedGroup _ _

lemma deletePaperFinish_selectedPaper (st : ClientState) (pid : String)
    (o : ApiOutcome (ApiOutcome (Option (List Paper)))) :
    (deletePaperFinish st pid o).selectedPaper = st.selectedPaper ∨
    (deletePaperFinish st pid o).selectedPaper = none := by
  cases o with
  | failure => exact Or.inl rfl
  | success r =>
    rcases clearPaperIfDeleted_selectedPaper (fetchPapersApply st r) pid with h | h
    · exact Or.inl (h.trans (fetchPapersApply_selectedPaper _ _))
    · exact Or.inr h

/-- Every single UI event preserves mutual exclusivity of the selections. -/
lemma step_selExcl {st st' : ClientState} (h : selExcl st) (hs : Step st st') :
    selExcl st' := by
  cases hs with
  | fetchPapers o => cases o <;> exact h
  | fetchGroups o => cases o <;> exact h
  | selectPaper p hmem => exact Or.inr rfl
  | selectGroup g hmem => exact Or.inl rfl
  | createGroupStep o =>
    cases o with
    | success r => cases r <;> exact h
    | failure => exact h
  | deleteGroupStep gid o =>
    rcases h with hp | hg
    · exact Or.inl ((deleteGroupFinish_selectedPaper st gid o).trans hp)
    · rcases deleteGroupFinish_selectedGroup st gid o with h' | h'
      · exact Or.inr (h'.trans hg)
      · exact Or.inr h'
  | addPapersStep o =>
    cases o with
    | success r => cases r <;> exact h
    | failure => exact h
  | uploadStartStep => exact h
  | uploadFinishStep o =>
    cases o with
    | success r => cases r <;> exact h
    | failure => exact h
  | deletePaperStep pid o =>
    rcases h with hp | hg
    · rcases deletePaperFinish_selectedPaper st pid o with h' | h'
      · exact Or.inl (h'.trans hp)
      · exact Or.inl h'
    · exact Or.inr ((deletePaperFinish_selectedGroup st pid o).trans hg)
  | askStartStep q now => exact h
  | askFinishStep o now2 => cases o <;> exact h
  | setModeStep m => exact h
  | toggleSidebarStep => exact h

/-- Mutual exclusivity holds in every reachable state. -/
lemma selExcl_of_reachable {st : ClientState} (h : Reachable st) : selExcl st := by
  induction h with
  | init => exact Or.inl rfl
  | step st st' _ hs ih => exact step_selExcl ih hs

/-- A concrete paper used in witnesses. -/
def p1 : Paper :=
  { paper_id := "p1", filename := "a.pdf", title := none
    upload_date := "2024-01-01", total_pages := 3, total_chunks := 7 }

/-- A group whose backend-supplied id is the empty string. -/
def g0 : PaperGroup :=
  { group_id := "", name := "G0", description := none
    paper_ids := ["p1", "p2"], created_date := "2024-01-02" }

/-- A group with an ordinary nonempty id and two member papers. -/
def g1 : PaperGroup :=
  { group_id := "g1", name := "G1", description := none
    paper_ids := ["p1", "p2"], created_date := "2024-01-02" }

/-- The state after the mount-time `fetchGroups` delivers `[g0, g1]`. -/
def stGroups : ClientState :=
  fetchGroupsApply initState (.success (some [g0, g1]))

/-- `stGroups` after the user clicks group `g0` in the sidebar. -/
def stG0 : ClientState :=
  { stGroups with selectedGroup := some g0, selectedPaper := none }

/-- `stGroups` after the user clicks group `g1` in the sidebar. -/
def stG1 : ClientState :=
  { stGroups with selectedGroup := some g1, selectedPaper := none }

/-- A state with the paper `p1` selected, used to witness delete-paper. -/
def stP1 : ClientState :=
  { initState with papers := [p1], selectedPaper := some p1 }

lemma reachable_stGroups : Reachable stGroups :=
  Reachable.step _ _ Reachable.init (Step.fetchGroups _ _)

lemma reachable_stG0 : Reachable stG0 :=
  Reachable.step _ _ reachable_stGroups (Step.selectGroup _ g0 (by decide))

lemma reachable_stG1 : Reachable stG1 :=
  Reachable.step _ _ reachable_stGroups (Step.selectGroup _ g1 (by decide))

@[simp] lemma fetchPapersApply_isLoading (st : ClientState)
    (o : ApiOutcome (Option (List Paper))) :
    (fetchPapersApply st o).isLoading = st.isLoading := by
  cases o <;> rfl

@[simp] lemma fetchGroupsApply_isLoading (st : ClientState)
    (o : ApiOutcome (Option (List PaperGroup))) :
    (fetchGroupsApply st o).isLoading = st.isLoading := by
  cases o <;> rfl

lemma clearGroupIfDeleted_isLoading (st : ClientState) (gid : String) :
    (clearGroupIfDeleted st gid).isLoading = st.isLoading := by
  rcases e : st.selectedGroup with _ | g
  · simp only [clearGroupIfDeleted, e]
  · simp only [clearGroupIfDeleted, e]
    by_cases hg : g.group_id = gid
    · rw [if_pos hg]
    · rw [if_neg hg]

lemma clearPaperIfDeleted_isLoading (st : ClientState) (pid : String) :
    (clearPaperIfDeleted st pid).isLoading = st.isLoading := by
  rcases e : st.selectedPaper with _ | p
  · simp only [clearPaperIfDeleted, e]
  · simp only [clearPaperIfDeleted, e]
    by_cases hp : p.paper_id = pid
    · rw [if_pos hp]
    · rw [if_neg hp]

/-- A non-PDF browser file, used in upload counterexamples. -/
def txtFile : DomFile := { name := "notes.txt", type := "text/plain" }

/-- Claim C1: every call to `askQuestion` appends exactly two entries to the
chat transcript, never zero or one — on success the user message followed by
an assistant message built from the response's answer, citations and mode; on
failure the user message followed by the fixed apology message. -/
theorem askQuestion_appends_exactly_two (st : ClientState) (q : String)
    (now : Nat) (o : ApiOutcome AskResponse) (now2 : Nat) :
    (askQuestion st q now o now2).messages =
      st.messages ++
        [mkUserMessage q now,
         match o with
         | .success d =>
           { id := toString (now2 + 1)
             role := .assistant
             content := d.answer
             citations := d.citations
             mode := d.mode
             timestamp := now2 }
         | .failure => apologyMessage now2] ∧
    (askQuestion st q now o now2).messages.length = st.messages.length + 2 := by
  cases o <;>
    refine ⟨?_, ?_⟩ <;>
      simp [askQuestion, askQuestionStart, askQuestionFinish]

/-- Claim C8: after every completed `askQuestion` call, whatever the outcome,
the loading flag is false (the `finally` path clears it). -/
theorem askQuestion_clears_loading (st : ClientState) (q : String) (now : Nat)
    (o : ApiOutcome AskResponse) (now2 : Nat) :
    (askQuestion st q now o now2).isLoading = false := by
  cases o <;> rfl

/-- Claim C2, counterexample: with group `g1` (paper ids `["p1","p2"]`)
selected, no field of the issued request body carries the group's paper-id
list — the body carries the group's id under `"group_id"` instead (the
source's local `paper_ids` variable is dead). -/
theorem askBody_omits_group_paper_ids :
    stG1.selectedGroup = some g1 ∧ g1.paper_ids = ["p1", "p2"] ∧
    JVal.jarr g1.paper_ids ∉ (askBody stG1 "q").map Prod.snd ∧
    bodyGet (askBody stG1 "q") "group_id" = some (JVal.jstr "g1") := by
  refine ⟨rfl, rfl, ?_, ?_⟩ <;> decide

/-- Claim C2, amended: the issued request body carries the question text
under `"question"`, the focused paper id under `"paper_id"` (null when no
paper is focused or its id is the empty string), the focused group's id
under `"group_id"` (null when no group is focused or its id is the empty
string), the active mode under `"mode"`, and the fixed top-k 5 under
`"top_k"`. -/
theorem askBody_field_values (st : ClientState) (q : String) :
    bodyGet (askBody st q) "question" = some (JVal.jstr q) ∧
    bodyGet (askBody st q) "paper_id" =
      some (match st.selectedPaper with
            | some p => if p.paper_id = "" then JVal.jnull else JVal.jstr p.paper_id
            | none => JVal.jnull) ∧
    bodyGet (askBody st q) "group_id" =
      some (match st.selectedGroup with
            | some g => if g.group_id = "" then JVal.jnull else JVal.jstr g.group_id
            | none => JVal.jnull) ∧
    bodyGet (askBody st q) "mode" = some (JVal.jstr st.mode.str) ∧
    bodyGet (askBody st q) "top_k" = some (JVal.jnum 5) :=
  ⟨rfl, rfl, rfl, rfl, rfl⟩

/-- Claim C3, counterexample: the reachable state `stG0` has the group `g0`
selected, yet the request body's `group_id` is null rather than the selected
group's id, because `g0.group_id` is the empty string and the source's
`selectedGroup?.group_id || null` coerces every falsy id — including the
empty string — to null. -/
theorem askBody_empty_group_id_sent_as_null :
    Reachable stG0 ∧ stG0.selectedGroup = some g0 ∧
    bodyGet (askBody stG0 "q") "group_id" = some JVal.jnull ∧
    bodyGet (askBody stG0 "q") "group_id" ≠ some (JVal.jstr g0.group_id) := by
  refine ⟨reachable_stG0, rfl, ?_, ?_⟩ <;> decide

/-- Claim C3, amended: for every question submitted in a reachable state
with a group selected, the request body's `group_id` equals the selected
group's id when that id is nonempty (an empty id is coerced to null by the
JavaScript `|| null`), its `paper_id` is null, and its `top_k` equals 5; and
in every state whatsoever `top_k` equals 5. -/
theorem askBody_group_selected_fields (st : ClientState) (q : String)
    (g : PaperGroup) (hr : Reachable st) (hg : st.selectedGroup = some g) :
    bodyGet (askBody st q) "group_id" =
      some (if g.group_id = "" then JVal.jnull else JVal.jstr g.group_id) ∧
    bodyGet (askBody st q) "paper_id" = some JVal.jnull ∧
    (∀ (st' : ClientState) (q' : String),
      bodyGet (askBody st' q') "top_k" = some (JVal.jnum 5)) := by
  have hp : st.selectedPaper = none := by
    rcases selExcl_of_reachable hr with h | h
    · exact h
    · rw [hg] at h
      cases h
  refine ⟨?_, ?_, fun st' q' => rfl⟩
  · show some (match st.selectedGroup with
      | some g => if g.group_id = "" then JVal.jnull else JVal.jstr g.group_id
      | none => JVal.jnull) =
      some (if g.group_id = "" then JVal.jnull else JVal.jstr g.group_id)
    rw [hg]
  · show some (match st.selectedPaper with
      | some p => if p.paper_id = "" then JVal.jnull else JVal.jstr p.paper_id
      | none => JVal.jnull) = some JVal.jnull
    rw [hp]

/-- Witness for the amended claim C3 at the concrete reachable state `stG1`
(group `g1` with id `"g1"` selected). -/
theorem askBody_group_selected_fields_witness :
    bodyGet (askBody stG1 "q") "group_id" =
      some (if g1.group_id = "" then JVal.jnull else JVal.jstr g1.group_id) ∧
    bodyGet (askBody stG1 "q") "paper_id" = some JVal.jnull :=
  ⟨(askBody_group_selected_fields stG1 "q" g1 reachable_stG1 rfl).1,
   (askBody_group_selected_fields stG1 "q" g1 reachable_stG1 rfl).2.1⟩

/-- Claim C4: in every reachable state at most one of `selectedPaper` and
`selectedGroup` is non-null — selecting a paper clears the group, selecting
a group clears the paper, and no other operation makes both non-null. -/
theorem selected_paper_group_mutual_exclusion (st : ClientState)
    (h : Reachable st) :
    st.selectedPaper = none ∨ st.selectedGroup = none :=
  selExcl_of_reachable h

/-- Witness for claim C4 at the concrete reachable state `stG1`. -/
theorem selected_paper_group_mutual_exclusion_witness :
    stG1.selectedPaper = none ∨ stG1.selectedGroup = none :=
  selected_paper_group_mutual_exclusion stG1 reachable_stG1

/-- Claim C5, counterexample: the non-PDF file `txtFile` chosen via the file
selector is posted (`some txtFile` reaches `handleFileUpload`) and no error
message is displayed — the selector path performs no MIME-type check. -/
theorem fileSelect_posts_non_pdf :
    txtFile.type ≠ "application/pdf" ∧
    (handleFileSelect initSidebar [txtFile]).2 = some txtFile ∧
    (handleFileSelect initSidebar [txtFile]).1.error = none := by
  refine ⟨?_, ?_, ?_⟩ <;> decide

/-- Claim C5, amended: a non-PDF file dropped onto the upload zone produces
the visible error `"Please upload a PDF file"` and is not posted; a file
chosen via the file selector is always posted, with no client-side MIME
validation (the input's `accept=".pdf"` attribute only filters the picker
dialog). -/
theorem upload_validation_drop_only (st : SidebarState) (f : DomFile)
    (rest : List DomFile) (h : f.type ≠ "application/pdf") :
    (handleDrop st (f :: rest)).1.error = some "Please upload a PDF file" ∧
    (handleDrop st (f :: rest)).2 = none ∧
    (∀ (g : DomFile) (gs : List DomFile),
      (handleFileSelect st (g :: gs)).2 = some g) := by
  refine ⟨?_, ?_, fun g gs => rfl⟩ <;>
    simp [handleDrop, h]

/-- Witness for the amended claim C5 at the concrete file `txtFile`. -/
theorem upload_validation_drop_only_witness :
    (handleDrop initSidebar [txtFile]).1.error = some "Please upload a PDF file" ∧
    (handleDrop initSidebar [txtFile]).2 = none :=
  ⟨(upload_validation_drop_only initSidebar txtFile [] (by decide)).1,
   (upload_validation_drop_only initSidebar txtFile [] (by decide)).2.1⟩

/-- Claim C6, counterexample: a `createGroup` call never enters the loading
state — the flag is false before the call, false after its synchronous
prefix, and false after either completion, so "every mutating call enters
the loading state when it starts" fails for create-group (and likewise for
delete-group, add-papers-to-group and delete-paper). -/
theorem createGroup_never_enters_loading :
    initState.isLoading = false ∧
    (createGroupStart initState).isLoading = false ∧
    (createGroupFinish (createGroupStart initState)
      (.success (.success (some [g1])))).isLoading = false ∧
    (createGroupFinish (createGroupStart initState) .failure).isLoading = false := by
  refine ⟨rfl, rfl, rfl, rfl⟩

/-- Claim C6, amended: `uploadPaper` and `askQuestion` enter the loading
state when they start and exit it unconditionally on completion; the other
four mutating calls (create-group, delete-group, add-papers-to-group,
delete-paper) never modify the loading flag at all. -/
theorem loading_flag_per_operation (st : ClientState) (q : String)
    (now now2 : Nat) (gid pid : String)
    (oU oP : ApiOutcome (ApiOutcome (Option (List Paper))))
    (oA : ApiOutcome AskResponse)
    (oG : ApiOutcome (ApiOutcome (Option (List PaperGroup)))) :
    (uploadPaperStart st).isLoading = true ∧
    (uploadPaperFinish st oU).isLoading = false ∧
    (askQuestionStart st q now).isLoading = true ∧
    (askQuestionFinish st oA now2).isLoading = false ∧
    (createGroupStart st).isLoading = st.isLoading ∧
    (createGroupFinish st oG).isLoading = st.isLoading ∧
    (deleteGroupStart st).isLoading = st.isLoading ∧
    (deleteGroupFinish st gid oG).isLoading = st.isLoading ∧
    (addPapersToGroupStart st).isLoading = st.isLoading ∧
    (addPapersToGroupFinish st oG).isLoading = st.isLoading ∧
    (deletePaperStart st).isLoading = st.isLoading ∧
    (deletePaperFinish st pid oP).isLoading = st.isLoading := by
  refine ⟨rfl, ?_, rfl, ?_, rfl, ?_, rfl, ?_, rfl, ?_, rfl, ?_⟩
  · cases oU <;> rfl
  · cases oA <;> rfl
  · cases oG with
    | success r => exact fetchGroupsApply_isLoading st r
    | failure => rfl
  · cases oG with
    | success r =>
      exact (clearGroupIfDeleted_isLoading _ _).trans (fetchGroupsApply_isLoading st r)
    | failure => rfl
  · cases oG with
    | success r => exact fetchGroupsApply_isLoading st r
    | failure => rfl
  · cases oP with
    | success r =>
      exact (clearPaperIfDeleted_isLoading _ _).trans (fetchPapersApply_isLoading st r)
    | failure => rfl

/-- Claim C7: for every operation, a failure (transport error or non-success
status) leaves the papers list, the groups list and both selections
unchanged; the single exception is a failed `askQuestion`, which still
appends the user message and the apology to the transcript while preserving
the same frame. -/
theorem failure_frame_preservation (st : ClientState) (gid pid q : String)
    (now now2 : Nat) :
    framePGS (fetchPapersApply st .failure) st ∧
    framePGS (fetchGroupsApply st .failure) st ∧
    framePGS (createGroupFinish (createGroupStart st) .failure) st ∧
    framePGS (deleteGroupFinish (deleteGroupStart st) gid .failure) st ∧
    framePGS (addPapersToGroupFinish (addPapersToGroupStart st) .failure) st ∧
    framePGS (uploadPaperFinish (uploadPaperStart st) .failure) st ∧
    framePGS (deletePaperFinish (deletePaperStart st) pid .failure) st ∧
    framePGS (askQuestion st q now .failure now2) st ∧
    (askQuestion st q now .failure now2).messages =
      st.messages ++ [mkUserMessage q now, apologyMessage now2] := by
  refine ⟨⟨rfl, rfl, rfl, rfl⟩, ⟨rfl, rfl, rfl, rfl⟩, ⟨rfl, rfl, rfl, rfl⟩,
    ⟨rfl, rfl, rfl, rfl⟩, ⟨rfl, rfl, rfl, rfl⟩, ⟨rfl, rfl, rfl, rfl⟩,
    ⟨rfl, rfl, rfl, rfl⟩, ⟨rfl, rfl, rfl, rfl⟩, ?_⟩
  simp [askQuestion, askQuestionStart, askQuestionFinish]

/-- Claim C9: deleting the currently selected group (resp. paper) clears
`selectedGroup` (resp. `selectedPaper`) once the delete completes
successfully. -/
theorem delete_selected_clears_selection (st : ClientState) (g : PaperGroup)
    (p : Paper) (rG : ApiOutcome (Option (List PaperGroup)))
    (rP : ApiOutcome (Option (List Paper))) :
    (st.selectedGroup = some g →
      (deleteGroupFinish st g.group_id (.success rG)).selectedGroup = none) ∧
    (st.selectedPaper = some p →
      (deletePaperFinish st p.paper_id (.success rP)).selectedPaper = none) := by
  constructor
  · intro hg
    show (clearGroupIfDeleted (fetchGroupsApply st rG) g.group_id).selectedGroup = none
    simp [clearGroupIfDeleted, hg]
  · intro hp
    show (clearPaperIfDeleted (fetchPapersApply st rP) p.paper_id).selectedPaper = none
    simp [clearPaperIfDeleted, hp]

/-- Witness for claim C9: deleting the selected group `g1` in `stG1` and the
selected paper `p1` in `stP1` (each with a failed refetch) clears the
respective selection. -/
theorem delete_selected_clears_selection_witness :
    (deleteGroupFinish stG1 g1.group_id (.success .failure)).selectedGroup = none ∧
    (deletePaperFinish stP1 p1.paper_id (.success .failure)).selectedPaper = none :=
  ⟨(delete_selected_clears_selection stG1 g1 p1 .failure .failure).1 rfl,
   (delete_selected_clears_selection stP1 g1 p1 .failure .failure).2 rfl⟩

/-- Claim C10: on a duplicate-free list of selected paper ids, `togglePaper`
yields a duplicate-free list in which the toggled id's membership is
inverted and every other id's membership is unchanged, and toggling the same
id twice restores the original set of selected ids. -/
theorem togglePaper_inverts_membership (prev : List String) (pid : String)
    (h : prev.Nodup) :
    (togglePaper prev pid).Nodup ∧
    (pid ∈ togglePaper prev pid ↔ pid ∉ prev) ∧
    (∀ x, x ≠ pid → (x ∈ togglePaper prev pid ↔ x ∈ prev)) ∧
    (∀ x, x ∈ togglePaper (togglePaper prev pid) pid ↔ x ∈ prev) := by
  by_cases hc : pid ∈ prev
  · have ht : togglePaper prev pid = prev.filter (fun id => id != pid) := by
      simp [togglePaper, hc]
    have hmem : ∀ x, x ∈ togglePaper prev pid ↔ x ∈ prev ∧ x ≠ pid := by
      intro x
      rw [ht, List.mem_filter]
      simp [bne_iff_ne]
    have hnot : pid ∉ togglePaper prev pid := by
      rw [hmem pid]
      simp
    have ht2 : togglePaper (togglePaper prev pid) pid =
        togglePaper prev pid ++ [pid] := by
      set t1 := togglePaper prev pid with htdef
      simp [togglePaper, hnot]
    refine ⟨?_, ?_, ?_, ?_⟩
    · rw [ht]
      exact h.filter _
    · rw [hmem pid]
      simp [hc]
    · intro x hx
      rw [hmem x]
      simp [hx]
    · intro x
      rw [ht2]
      by_cases hx : x = pid
      · subst hx
        simp [hc]
      · rw [List.mem_append, hmem x]
        simp [hx]
  · have ht : togglePaper prev pid = prev ++ [pid] := by
      simp [togglePaper, hc]
    have hin : pid ∈ togglePaper prev pid := by
      rw [ht]
      simp
    have ht2 : togglePaper (togglePaper prev pid) pid =
        (togglePaper prev pid).filter (fun id => id != pid) := by
      set t1 := togglePaper prev pid with htdef
      simp [togglePaper, hin]
    refine ⟨?_, ?_, ?_, ?_⟩
    · rw [ht]
      exact h.append (List.nodup_singleton pid) (List.disjoint_singleton.2 hc)
    · rw [ht]
      simp [hc]
    · intro x hx
      rw [ht, List.mem_append]
      simp [hx]
    · intro x
      rw [ht2, List.mem_filter]
      by_cases hx : x = pid
      · subst hx
        simp [hc]
      · rw [ht, List.mem_append]
        simp [hx, bne_iff_ne]

/-- Witness for claim C10 at the concrete list `["a", "b"]` and id `"b"`. -/
theorem togglePaper_inverts_membership_witness :
    (togglePaper ["a", "b"] "b").Nodup ∧
    ("b" ∈ togglePaper ["a", "b"] "b" ↔ "b" ∉ (["a", "b"] : List String)) :=
  ⟨(togglePaper_inverts_membership ["a", "b"] "b" (by decide)).1,
   (togglePaper_inverts_membership ["a", "b"] "b" (by decide)).2.1⟩
